import Mathlib

/-!
A shallow embedding of `pyplume/gapfilling.py` (gap-filling of gridded
ocean-surface current fields) together with theorems settling the spec's
claims about it.

Conventions of the embedding:

* A numpy floating-point scalar is modelled by `FVal`: either `nan` or a
  finite value.  The only float operations the gap-filling code uses on
  values are `abs`, `+`, comparison with `0` and `isnan`; these are modelled
  with IEEE NaN propagation (`nan + x = nan`, `nan == 0` is false).  Finite
  values and coordinates are carried as integers, which the code's
  operations (abs, addition, order comparisons, zero tests) never leave.
* A 3-D numpy array of shape (time, lat, lon) is modelled as a function
  `Fin (nt+1) → Fin (ny+1) → Fin (nx+1) → FVal` (axes are nonempty, as the
  code indexes `[0]` and `[-1]` of every coordinate axis).
* The `SurfaceGrid` class lives in `pyplume/dataloaders.py`, which is not
  part of the sources under scrutiny; `RefGrid` abstracts exactly the
  interface `gapfilling.py` uses from it (coordinate span endpoints, the
  fieldset time step, `get_fs_vector`, `get_closest_current`).
* In-place numpy fancy assignment `a[np.where(m)] = arr`, where `arr[i]`
  was computed per flattened index `i` of `np.where(m)`, is modelled
  pointwise: the value written at a position depends only on that
  position, so the flattening order is irrelevant.
* Python exceptions are modelled by `Except String`.
-/

/-- A floating-point value: NaN or a finite (integer-valued) sample. -/
inductive FVal where
  | nan : FVal
  | fin (q : ℤ) : FVal
deriving DecidableEq

/-- The test `np.isnan` on a scalar. -/
def isnan : FVal → Bool
  | .nan => true
  | .fin _ => false

/-- Absolute value `abs` with NaN propagation. -/
def fabs : FVal → FVal
  | .nan => .nan
  | .fin q => .fin (q.natAbs : ℤ)

/-- Addition with NaN propagation. -/
def fadd : FVal → FVal → FVal
  | .nan, _ => .nan
  | .fin _, .nan => .nan
  | .fin a, .fin b => .fin (a + b)

/-- Comparison `x == 0` in IEEE semantics: false when `x` is NaN. -/
def iszero : FVal → Bool
  | .nan => false
  | .fin q => decide (q = 0)

/-- A 3-D array over a (time, lat, lon) grid with `nt+1` time steps,
`ny+1` latitudes and `nx+1` longitudes. -/
def Arr (nt ny nx : ℕ) : Type :=
  Fin (nt + 1) → Fin (ny + 1) → Fin (nx + 1) → FVal

/-- The coordinate axes of the target dataset, as exposed by
`SurfaceGrid.get_coords` / `.lats` / `.lons`; each axis is a nonempty
array of coordinates. -/
structure TargetGrid (nt ny nx : ℕ) where
  times : Fin (nt + 1) → ℤ
  lats : Fin (ny + 1) → ℤ
  lons : Fin (nx + 1) → ℤ

/-- The interface of a loaded reference `SurfaceGrid` that
`gapfilling.py` actually consumes: the first/last entry of each
coordinate axis (used by `do_validation`), the fieldset time step
`np.diff(ref.fieldset_flat.U.grid.time)[0]` (`time_diff`), the
interpolating lookup `get_fs_vector(time, lat, lon)` for both vector
components, and the `U` component of the nearest-neighbour lookup
`get_closest_current(t, lat, lon)`. -/
structure RefGrid where
  timeFirst : ℤ
  timeLast : ℤ
  latFirst : ℤ
  latLast : ℤ
  lonFirst : ℤ
  lonLast : ℤ
  time_diff : ℤ
  fs_u : ℤ → ℤ → ℤ → FVal
  fs_v : ℤ → ℤ → ℤ → FVal
  closest_u : ℕ → ℤ → ℤ → FVal

/-- Modelled from the spec: `utils.generate_mask_invalid` is defined in
`pyplume/utils.py`, which is not among the sources under scrutiny.  The
spec's invalidity rule is "`U == NaN` OR `V == NaN` OR (`|U| + |V| == 0`)";
both call sites in `gapfilling.py` pass a single component array (`u`,
respectively `target_interped_u`), so the rule is applied to the one
array the function receives: a cell is invalid when its value is NaN or
has zero magnitude. -/
def invalidVal (x : FVal) : Bool :=
  isnan x || iszero (fabs x)

/-- The mask `utils.generate_mask_invalid` lifted elementwise over a 3-D array,
returning the boolean invalid mask. -/
def generate_mask_invalid {nt ny nx : ℕ} (a : Arr nt ny nx) :
    Fin (nt + 1) → Fin (ny + 1) → Fin (nx + 1) → Bool :=
  fun t y x => invalidVal (a t y x)

/-- The count `invalid.sum()`: the number of cells the invalid mask marks on an
array. -/
def invalidCount {nt ny nx : ℕ} (a : Arr nt ny nx) : ℕ :=
  (Finset.univ.filter
    (fun p : Fin (nt + 1) × Fin (ny + 1) × Fin (nx + 1) =>
      generate_mask_invalid a p.1 p.2.1 p.2.2 = true)).card

/-- The invalidity rule exactly as the spec words it, over both
components: `u is NaN or v is NaN or (|u|+|v| == 0)`.  This definition
follows the spec's words, for comparison with the code's
single-component mask. -/
def spec_invalid (u v : FVal) : Bool :=
  isnan u || isnan v || iszero (fadd (fabs u) (fabs v))

/-- The function `get_interped(i, target, ref, invalid_where)` from `gapfilling.py`,
stated per cell position `(t, y, x)` (the flattened index `i` only
selects the position).  It looks up the reference's interpolated vector
at `(t * time_diff, target.lats[y], target.lons[x])`, and rejects the
fill — returning `(nan, nan)` — when the `U` component of the
nearest-neighbour value at `(t, lat, lon)` is NaN or when
`abs(u) + abs(v)` of the interpolated vector equals `0`. -/
def get_interped {nt ny nx : ℕ} (target : TargetGrid nt ny nx) (ref : RefGrid)
    (t : Fin (nt + 1)) (y : Fin (ny + 1)) (x : Fin (nx + 1)) : FVal × FVal :=
  let lat := target.lats y
  let lon := target.lons x
  let current_u := ref.fs_u ((t : ℕ) * ref.time_diff) lat lon
  let current_v := ref.fs_v ((t : ℕ) * ref.time_diff) lat lon
  let current_abs := fadd (fabs current_u) (fabs current_v)
  if isnan (ref.closest_u (t : ℕ) lat lon) || iszero current_abs then
    (.nan, .nan)
  else
    (current_u, current_v)

/-- One iteration of the `for ref in loaded_references` loop of
`InterpolationStep.process` (lines 102–118): recompute the invalid mask
of the current `u` array, write `get_interped`'s result into both
arrays at every invalid position, and leave every other position
untouched. -/
def processRef {nt ny nx : ℕ} (target : TargetGrid nt ny nx) (ref : RefGrid)
    (u v : Arr nt ny nx) : Arr nt ny nx × Arr nt ny nx :=
  (fun t y x =>
      if generate_mask_invalid u t y x then (get_interped target ref t y x).1
      else u t y x,
   fun t y x =>
      if generate_mask_invalid u t y x then (get_interped target ref t y x).2
      else v t y x)

/-- The whole per-reference loop: fold `processRef` over the loaded
references in order. -/
def applyRefs {nt ny nx : ℕ} (target : TargetGrid nt ny nx)
    (refs : List RefGrid) (uv : Arr nt ny nx × Arr nt ny nx) :
    Arr nt ny nx × Arr nt ny nx :=
  refs.foldl (fun uv r => processRef target r uv.1 uv.2) uv

/-- The coverage test of `InterpolationStep.do_validation` for one
reference: the reference's lat, lon and time spans each enclose the
target's span. -/
def coversTarget {nt ny nx : ℕ} (target : TargetGrid nt ny nx)
    (ref : RefGrid) : Bool :=
  (decide (ref.latFirst ≤ target.lats 0) &&
      decide (target.lats (Fin.last ny) ≤ ref.latLast)) &&
    (decide (ref.lonFirst ≤ target.lons 0) &&
      decide (target.lons (Fin.last nx) ≤ ref.lonLast)) &&
    (decide (ref.timeFirst ≤ target.times 0) &&
      decide (target.times (Fin.last nt) ≤ ref.timeLast))

/-- The check `InterpolationStep.do_validation`: raises `ValueError` as soon as
some loaded reference fails the coverage test (checking all references
with one error outcome is equivalent to raising at the first failing
one). -/
def do_validation {nt ny nx : ℕ} (target : TargetGrid nt ny nx)
    (loaded_references : List RefGrid) : Except String Unit :=
  if loaded_references.all (coversTarget target) then .ok ()
  else .error
    "Incorrect reference dimensions (reference dimension ranges should be larger than the target's)"

/-- The reference arguments `InterpolationStep` accepts: an
already-loaded grid, a locator string, or a value of any other type
(recorded here by a description of the offending value, standing for
Python's arbitrary object). -/
inductive RefInput where
  | grid (g : RefGrid)
  | locator (s : String)
  | other (desc : String)

/-- Modelled from the spec: `slice_dataset` is defined in
`pyplume/dataloaders.py`, which is not among the sources under scrutiny.
Per the spec, slicing with `inclusive=True` crops the reference's data
to the target's coordinate ranges while still covering them; the
coordinate span and the lookup interface — the only parts of the result
this module observes — are preserved. -/
def slice_dataset (r : RefGrid) : RefGrid := r

/-- The reference-loading loop at the top of
`InterpolationStep.process` (lines 75–91): loaded grids pass through,
locator strings are resolved by the external loader
(`thredds_data.SRC_THREDDS_HFRNET_UCSD.load_source`, an external
collaborator, modelled as the function argument `loader`) and sliced,
and any other value raises `TypeError`. -/
def loadReferences (loader : String → RefGrid)
    (references : List RefInput) : Except String (List RefGrid) :=
  references.mapM (fun r =>
    match r with
    | .grid g => .ok g
    | .locator s => .ok (slice_dataset (loader s))
    | .other d => .error ("Unrecognized type for " ++ d))

/-- The constructor `InterpolationStep.__init__`: `references` defaults to the empty
list when `None` is passed. -/
def InterpolationStep.mk_references (references : Option (List RefInput)) :
    List RefInput :=
  references.getD []

/-- The method `InterpolationStep.process`: load the references, validate coverage
of every one of them, then run the per-reference fill loop on copies of
the input arrays.  A `TypeError` from loading or a `ValueError` from
validation propagates out of `process`. -/
def InterpolationStep.process {nt ny nx : ℕ} (loader : String → RefGrid)
    (references : List RefInput) (target : TargetGrid nt ny nx)
    (u v : Arr nt ny nx) : Except String (Arr nt ny nx × Arr nt ny nx) := do
  let loaded ← loadReferences loader references
  let _ ← do_validation target loaded
  .ok (applyRefs target loaded (u, v))

/-- A 2-D array over the lat/lon grid (one time slice). -/
def Arr2 (ny nx : ℕ) : Type :=
  Fin (ny + 1) → Fin (nx + 1) → FVal

/-- The interface `SmoothnStep` consumes from the mask `SurfaceGrid`:
its lat/lon axes (for `do_validation`; the sizes are shared with the
target, which models the same-resolution requirement the code checks by
length equality) and the values of its `U` variable. -/
structure MaskGrid (ny nx : ℕ) where
  lats : Fin (ny + 1) → ℤ
  lons : Fin (nx + 1) → ℤ
  U : Arr2 ny nx

/-- Modelled from the spec: `utils.generate_mask_no_data` is defined in
`pyplume/utils.py`, which is not among the sources under scrutiny.  Per
the spec it marks the "known land/no-data" cells of the mask grid: the
cells whose value carries no data, i.e. is NaN. -/
def generate_mask_no_data {ny nx : ℕ} (m : Arr2 ny nx) :
    Fin (ny + 1) → Fin (nx + 1) → Bool :=
  fun y x => isnan (m y x)

/-- The check `SmoothnStep.do_validation`: with no mask it does nothing; with a
mask it requires the mask's lat/lon endpoints to equal the target's
exactly (the same-length requirement is carried by the shared `ny nx`
sizes), raising `ValueError` otherwise. -/
def SmoothnStep.do_validation {nt ny nx : ℕ} (mask : Option (MaskGrid ny nx))
    (target : TargetGrid nt ny nx) : Except String Unit :=
  match mask with
  | none => .ok ()
  | some m =>
    if (decide (m.lats 0 = target.lats 0) &&
          decide (m.lats (Fin.last ny) = target.lats (Fin.last ny))) &&
        (decide (m.lons 0 = target.lons 0) &&
          decide (m.lons (Fin.last nx) = target.lons (Fin.last nx))) then
      .ok ()
    else .error "Incorrect mask dimensions"

/-- The method `SmoothnStep.process`: validate the mask against the target, smooth
each time slice of `(u, v)` with the external engine (`eng.smoothn`, an
opaque external collaborator, modelled as the function argument
`engine`), then — when a mask was supplied — force every cell of
`generate_mask_no_data` (tiled over every time step) to NaN in both
output arrays. -/
def SmoothnStep.process {nt ny nx : ℕ}
    (engine : Arr2 ny nx → Arr2 ny nx → Arr2 ny nx × Arr2 ny nx)
    (mask : Option (MaskGrid ny nx)) (target : TargetGrid nt ny nx)
    (u v : Arr nt ny nx) : Except String (Arr nt ny nx × Arr nt ny nx) := do
  let _ ← SmoothnStep.do_validation mask target
  let su : Arr nt ny nx := fun t => (engine (u t) (v t)).1
  let sv : Arr nt ny nx := fun t => (engine (u t) (v t)).2
  match mask with
  | none => .ok (su, sv)
  | some m =>
    .ok (fun t y x => if generate_mask_no_data m.U y x then .nan else su t y x,
         fun t y x => if generate_mask_no_data m.U y x then .nan else sv t y x)

/-- An xarray `Dataset` as `Gapfiller.execute` consumes it: named
dimensions, named coordinate arrays, named data variables over the
(time, lat, lon) grid, and free-form attributes.  Variables form an
ordered association list, as in xarray. -/
structure Dataset (nt ny nx : ℕ) where
  dims : List (String × ℕ)
  coords : List (String × List ℤ)
  vars : List (String × Arr nt ny nx)
  attrs : List (String × String)

/-- Lookup `ds[name]` on the data variables of a dataset. -/
def Dataset.getVar {nt ny nx : ℕ} (ds : Dataset nt ny nx) (name : String) :
    Option (Arr nt ny nx) :=
  (ds.vars.find? (fun p => p.1 = name)).map (fun p => p.2)

/-- The method `Gapfiller.execute`: read `U` and `V` (raising `KeyError` when
absent), thread the pair through every step in order, then rebuild the
dataset by `drop_vars(["U", "V"]).assign(U=..., V=...)` —
`utils.conv_to_dataarray` re-attaches the original coordinates and
dimensions, which in this model live unchanged on the dataset.  A step
is a shape-preserving `process` function (the shape contract is carried
by the types); a step that raises aborts `execute` with its error. -/
def Gapfiller.execute {nt ny nx : ℕ}
    (steps : List (Arr nt ny nx → Arr nt ny nx →
      Except String (Arr nt ny nx × Arr nt ny nx)))
    (target : Dataset nt ny nx) : Except String (Dataset nt ny nx) := do
  let u₀ ← match target.getVar "U" with
    | some a => Except.ok a
    | none => Except.error "KeyError: U"
  let v₀ ← match target.getVar "V" with
    | some a => Except.ok a
    | none => Except.error "KeyError: V"
  let uv ← steps.foldlM (fun uv step => step uv.1 uv.2) (u₀, v₀)
  .ok { target with
    vars := (target.vars.filter (fun p => !(p.1 = "U" || p.1 = "V"))) ++
      [("U", uv.1), ("V", uv.2)] }

/-- The argument records a declarative step configuration may carry
(`step["args"]`, passed as `**kwargs` to the step constructor). -/
inductive StepArgs where
  | interpArgs (references : Option (List RefInput))
  | smoothnArgs (mask : Option Unit)

/-- One record of a declarative configuration: a step name and its
constructor arguments. -/
structure StepRecord where
  name : String
  args : StepArgs

/-- A constructed gap-filling step, holding only its configuration:
`InterpolationStep` stores its reference list, `SmoothnStep` its
optional mask. -/
inductive GapStep where
  | interp (references : List RefInput)
  | smoothn (mask : Option Unit)

/-- The resolver `import_gapfill_step(name)`: resolve a step name against the module
registry (`getattr` on `pyplume.gapfilling`); unknown names raise
`AttributeError`.  The result is the step constructor, which turns the
record's arguments into a step. -/
def import_gapfill_step (name : String) :
    Except String (StepArgs → GapStep) :=
  if name = "InterpolationStep" then
    .ok (fun a =>
      match a with
      | .interpArgs r => .interp (InterpolationStep.mk_references r)
      | .smoothnArgs m => .smoothn m)
  else if name = "SmoothnStep" then
    .ok (fun a =>
      match a with
      | .interpArgs r => .interp (InterpolationStep.mk_references r)
      | .smoothnArgs m => .smoothn m)
  else
    .error ("Gapfilling step " ++ name ++ " not found in gapfilling.py")

/-- The loader `Gapfiller.load_from_config`: construct every step of the
configuration list (resolving each name through
`import_gapfill_step` and applying the constructor to the record's
arguments) before any of them runs; the first unknown name aborts
construction. -/
def load_from_config (cfg : List StepRecord) : Except String (List GapStep) :=
  cfg.mapM (fun r => do
    let ctor ← import_gapfill_step r.name
    pure (ctor r.args))

/-- Modelled from the spec: a `SurfaceGrid` with its own coordinate
span, whose point lookups fail with `OutOfDomain` when the query point
lies outside the span on any axis, recovered as "no data" inside
interpolation — modelled by the guarded lookups returning NaN outside
the span.  `raw_u`, `raw_v`, `raw_closest_u` are the in-span values. -/
structure SpanRef where
  tmin : ℤ
  tmax : ℤ
  latmin : ℤ
  latmax : ℤ
  lonmin : ℤ
  lonmax : ℤ
  time_diff : ℤ
  raw_u : ℤ → ℤ → ℤ → FVal
  raw_v : ℤ → ℤ → ℤ → FVal
  raw_closest_u : ℕ → ℤ → ℤ → FVal

/-- Whether a query coordinate lies inside a `SpanRef`'s span on every
axis. -/
def SpanRef.inSpan (r : SpanRef) (time lat lon : ℤ) : Bool :=
  decide (r.tmin ≤ time) && decide (time ≤ r.tmax) &&
    (decide (r.latmin ≤ lat) && decide (lat ≤ r.latmax)) &&
    (decide (r.lonmin ≤ lon) && decide (lon ≤ r.lonmax))

/-- The `RefGrid` interface of a `SpanRef`: span endpoints come from the
span, and every lookup is guarded by the span check (out-of-span
queries yield NaN, the recovered `OutOfDomain`). -/
def SpanRef.toRefGrid (r : SpanRef) : RefGrid where
  timeFirst := r.tmin
  timeLast := r.tmax
  latFirst := r.latmin
  latLast := r.latmax
  lonFirst := r.lonmin
  lonLast := r.lonmax
  time_diff := r.time_diff
  fs_u := fun time lat lon =>
    if r.inSpan time lat lon then r.raw_u time lat lon else .nan
  fs_v := fun time lat lon =>
    if r.inSpan time lat lon then r.raw_v time lat lon else .nan
  closest_u := fun t lat lon =>
    if decide (r.latmin ≤ lat) && decide (lat ≤ r.latmax) &&
        (decide (r.lonmin ≤ lon) && decide (lon ≤ r.lonmax)) then
      r.raw_closest_u t lat lon
    else .nan

/-! Concrete fixtures: a one-cell target grid, references that do and do
not cover it, and small input arrays, used to instantiate the theorems
below at concrete inputs. -/

/-- A 1×1×1 target grid at time 0, latitude 32, longitude −117. -/
def targ1 : TargetGrid 0 0 0 where
  times := fun _ => 0
  lats := fun _ => 32
  lons := fun _ => -117

/-- A reference whose span encloses `targ1` and whose field is the
constant vector (2, 3) with a non-NaN nearest-neighbour value. -/
def goodRef : RefGrid where
  timeFirst := -1
  timeLast := 1
  latFirst := 30
  latLast := 34
  lonFirst := -119
  lonLast := -115
  time_diff := 1
  fs_u := fun _ _ _ => .fin 2
  fs_v := fun _ _ _ => .fin 3
  closest_u := fun _ _ _ => .fin 1

/-- A reference whose latitude span starts at 33 > 32 and therefore
fails the coverage test against `targ1`. -/
def badRef : RefGrid where
  timeFirst := -1
  timeLast := 1
  latFirst := 33
  latLast := 34
  lonFirst := -119
  lonLast := -115
  time_diff := 1
  fs_u := fun _ _ _ => .fin 2
  fs_v := fun _ _ _ => .fin 3
  closest_u := fun _ _ _ => .fin 1

/-- A covering reference whose own field is identically the zero
vector: every looked-up value has zero magnitude. -/
def refZero : RefGrid where
  timeFirst := -1
  timeLast := 1
  latFirst := 30
  latLast := 34
  lonFirst := -119
  lonLast := -115
  time_diff := 1
  fs_u := fun _ _ _ => .fin 0
  fs_v := fun _ _ _ => .fin 0
  closest_u := fun _ _ _ => .fin 1

/-- A span-guarded reference whose latitude span ends at 31 < 32: the
lookup for `targ1`'s cell falls outside it. -/
def spanRefW : SpanRef where
  tmin := 0
  tmax := 10
  latmin := 0
  latmax := 31
  lonmin := -119
  lonmax := -115
  time_diff := 1
  raw_u := fun _ _ _ => .fin 2
  raw_v := fun _ _ _ => .fin 3
  raw_closest_u := fun _ _ _ => .fin 1

/-- A trivial external loader resolving every locator to `goodRef`. -/
def loader0 : String → RefGrid := fun _ => goodRef

/-- Constant array u = 1. -/
def uA : Arr 0 0 0 := fun _ _ _ => .fin 1

/-- Constant array v = NaN. -/
def vA : Arr 0 0 0 := fun _ _ _ => .nan

/-- Constant array u = 1. -/
def uB : Arr 0 0 0 := fun _ _ _ => .fin 1

/-- Constant array v = 5. -/
def vB : Arr 0 0 0 := fun _ _ _ => .fin 5

/-- Constant array of NaN. -/
def uN : Arr 0 0 0 := fun _ _ _ => .nan

/-- Constant array of NaN. -/
def vN : Arr 0 0 0 := fun _ _ _ => .nan

/-- A 1×1×1 dataset over `targ1`'s axes with an extra variable "W" and
an attribute, to observe what `Gapfiller.execute` preserves. -/
def dsW : Dataset 0 0 0 where
  dims := [("time", 1), ("lat", 1), ("lon", 1)]
  coords := [("time", [0]), ("lat", [32]), ("lon", [-117])]
  vars := [("U", uB), ("V", vB), ("W", uA)]
  attrs := [("title", "surface currents")]

/-- A mask grid on `targ1`'s lat/lon axes whose `U` variable is NaN:
its only cell is a no-data cell. -/
def maskW : MaskGrid 0 0 where
  lats := fun _ => 32
  lons := fun _ => -117
  U := fun _ _ => .nan

/-- A smoothing engine returning the constant pair (7, 8): it never
returns NaN anywhere. -/
def engineW : Arr2 0 0 → Arr2 0 0 → Arr2 0 0 × Arr2 0 0 :=
  fun _ _ => (fun _ _ => .fin 7, fun _ _ => .fin 8)
theorem processRef_fst_eq_of_valid {nt ny nx : ℕ}
    (target : TargetGrid nt ny nx) (ref : RefGrid) (u v : Arr nt ny nx)
    (t : Fin (nt + 1)) (y : Fin (ny + 1)) (x : Fin (nx + 1))
    (h : generate_mask_invalid u t y x = false) :
    (processRef target ref u v).1 t y x = u t y x := by
  simp [processRef, h]

theorem processRef_snd_eq_of_valid {nt ny nx : ℕ}
    (target : TargetGrid nt ny nx) (ref : RefGrid) (u v : Arr nt ny nx)
    (t : Fin (nt + 1)) (y : Fin (ny + 1)) (x : Fin (nx + 1))
    (h : generate_mask_invalid u t y x = false) :
    (processRef target ref u v).2 t y x = v t y x := by
  simp [processRef, h]

theorem invalidCount_processRef_le {nt ny nx : ℕ}
    (target : TargetGrid nt ny nx) (ref : RefGrid) (u v : Arr nt ny nx) :
    invalidCount (processRef target ref u v).1 ≤ invalidCount u := by
  apply Finset.card_le_card
  intro p hp
  simp only [Finset.mem_filter, Finset.mem_univ, true_and] at hp ⊢
  by_contra hvalid
  have hfalse : generate_mask_invalid u p.1 p.2.1 p.2.2 = false := by
    revert hvalid
    cases generate_mask_invalid u p.1 p.2.1 p.2.2 <;> simp
  have heq := processRef_fst_eq_of_valid target ref u v p.1 p.2.1 p.2.2 hfalse
  rw [generate_mask_invalid] at hp
  rw [heq] at hp
  rw [generate_mask_invalid] at hfalse
  rw [hp] at hfalse
  exact Bool.true_eq_false.mp hfalse

theorem applyRefs_nil {nt ny nx : ℕ} (target : TargetGrid nt ny nx)
    (uv : Arr nt ny nx × Arr nt ny nx) : applyRefs target [] uv = uv := rfl

theorem applyRefs_append {nt ny nx : ℕ} (target : TargetGrid nt ny nx)
    (l₁ l₂ : List RefGrid) (uv : Arr nt ny nx × Arr nt ny nx) :
    applyRefs target (l₁ ++ l₂) uv = applyRefs target l₂ (applyRefs target l₁ uv) := by
  simp [applyRefs, List.foldl_append]

theorem applyRefs_valid_untouched {nt ny nx : ℕ}
    (target : TargetGrid nt ny nx) (refs : List RefGrid)
    (u v : Arr nt ny nx)
    (t : Fin (nt + 1)) (y : Fin (ny + 1)) (x : Fin (nx + 1))
    (h : generate_mask_invalid u t y x = false) :
    (applyRefs target refs (u, v)).1 t y x = u t y x ∧
      (applyRefs target refs (u, v)).2 t y x = v t y x := by
  induction refs generalizing u v with
  | nil => exact ⟨rfl, rfl⟩
  | cons r rs ih =>
    have h1 := processRef_fst_eq_of_valid target r u v t y x h
    have h2 := processRef_snd_eq_of_valid target r u v t y x h
    have hmask : generate_mask_invalid (processRef target r u v).1 t y x = false := by
      rw [generate_mask_invalid] at h ⊢
      rw [h1]
      exact h
    have step : applyRefs target (r :: rs) (u, v) =
        applyRefs target rs (processRef target r u v) := rfl
    rw [step]
    rcases ih (processRef target r u v).1 (processRef target r u v).2 hmask with ⟨ha, hb⟩
    constructor
    · rw [ha, h1]
    · rw [hb, h2]


theorem applyRefs_fst_indep_v {nt ny nx : ℕ} (target : TargetGrid nt ny nx)
    (refs : List RefGrid) (u v v' : Arr nt ny nx) :
    (applyRefs target refs (u, v)).1 = (applyRefs target refs (u, v')).1 := by
  induction refs generalizing u v v' with
  | nil => rfl
  | cons r rs ih =>
    show (applyRefs target rs (processRef target r u v)).1 =
      (applyRefs target rs (processRef target r u v')).1
    exact ih (processRef target r u v).1 (processRef target r u v).2
      (processRef target r u v').2

theorem invalidCount_applyRefs_take_succ_le {nt ny nx : ℕ}
    (target : TargetGrid nt ny nx) (refs : List RefGrid) (k : ℕ)
    (uv : Arr nt ny nx × Arr nt ny nx) :
    invalidCount (applyRefs target (refs.take (k + 1)) uv).1 ≤
      invalidCount (applyRefs target (refs.take k) uv).1 := by
  by_cases h : k < refs.length
  · have htake : refs.take (k + 1) = refs.take k ++ [refs.get ⟨k, h⟩] := by
      rw [← List.take_concat_get refs k h, List.concat_eq_append]
      rfl
    rw [htake, applyRefs_append]
    have hone : applyRefs target [refs.get ⟨k, h⟩] (applyRefs target (refs.take k) uv) =
        processRef target (refs.get ⟨k, h⟩)
          (applyRefs target (refs.take k) uv).1
          (applyRefs target (refs.take k) uv).2 := rfl
    rw [hone]
    exact invalidCount_processRef_le target (refs.get ⟨k, h⟩)
      (applyRefs target (refs.take k) uv).1 (applyRefs target (refs.take k) uv).2
  · have hlen : refs.length ≤ k := Nat.le_of_not_lt h
    rw [List.take_of_length_le hlen, List.take_of_length_le (Nat.le_succ_of_le hlen)]

theorem find?_filter_append {nt ny nx : ℕ} (vars : List (String × Arr nt ny nx))
    (a b : Arr nt ny nx) (name : String) (hU : name ≠ "U") (hV : name ≠ "V") :
    ((vars.filter (fun p => !(p.1 = "U" || p.1 = "V"))) ++
        [("U", a), ("V", b)]).find? (fun p => p.1 = name) =
      vars.find? (fun p => p.1 = name) := by
  induction vars with
  | nil =>
    simp [List.find?, Ne.symm hU, Ne.symm hV]
  | cons hd tl ih =>
    rw [List.filter_cons]
    by_cases hisU : hd.1 = "U"
    · have hname : ¬(hd.1 = name) := by rw [hisU]; exact Ne.symm hU
      rw [if_neg (by simp [hisU]), List.find?_cons_of_neg _ (by simp [hname])]
      exact ih
    · by_cases hisV : hd.1 = "V"
      · have hname : ¬(hd.1 = name) := by rw [hisV]; exact Ne.symm hV
        rw [if_neg (by simp [hisV]), List.find?_cons_of_neg _ (by simp [hname])]
        exact ih
      · rw [if_pos (by simp [hisU, hisV]), List.cons_append]
        by_cases hname : hd.1 = name
        · rw [List.find?_cons_of_pos _ (by simp [hname]),
            List.find?_cons_of_pos _ (by simp [hname])]
        · rw [List.find?_cons_of_neg _ (by simp [hname]),
            List.find?_cons_of_neg _ (by simp [hname])]
          exact ih

theorem loadReferences_grids (loader : String → RefGrid) (gs : List RefGrid) :
    loadReferences loader (gs.map RefInput.grid) = .ok gs := by
  induction gs with
  | nil => rfl
  | cons g t ih =>
    simp only [loadReferences, List.map_cons, List.mapM_cons] at ih ⊢
    rw [ih]
    rfl

theorem loadReferences_other (loader : String → RefGrid) (gs : List RefGrid)
    (d : String) (post : List RefInput) :
    loadReferences loader (gs.map RefInput.grid ++ RefInput.other d :: post) =
      .error ("Unrecognized type for " ++ d) := by
  induction gs with
  | nil => rfl
  | cons g t ih =>
    simp only [loadReferences, List.map_cons, List.cons_append, List.mapM_cons] at ih ⊢
    rw [ih]
    rfl

/-- Claim C3: for every target and every reference sequence, the number
of invalid cells after `InterpolationStep` processes reference `k` is
less than or equal to the number before processing it; at no point of
the per-reference loop does the invalid-cell count increase.  Stated
over the loop state after the first `k` (respectively `k+1`) references
of any reference list, for any starting arrays. -/
theorem interp_invalid_count_monotone {nt ny nx : ℕ}
    (target : TargetGrid nt ny nx) (refs : List RefGrid) (k : ℕ)
    (uv : Arr nt ny nx × Arr nt ny nx) :
    invalidCount (applyRefs target (refs.take (k + 1)) uv).1 ≤
      invalidCount (applyRefs target (refs.take k) uv).1 :=
  invalidCount_applyRefs_take_succ_le target refs k uv

/-- Claim C4: a cell that is valid at the start of a reference pass of
`InterpolationStep.process` — the theorem quantifies over the loop
state `(u, v)`, so this covers cells valid in the original input as
well as cells filled by an earlier reference — is never written by that
pass or any later one: its `u` and `v` values after the remaining
passes equal the values it held when it became valid. -/
theorem interp_valid_cell_never_rewritten {nt ny nx : ℕ}
    (target : TargetGrid nt ny nx) (refs : List RefGrid)
    (u v : Arr nt ny nx)
    (t : Fin (nt + 1)) (y : Fin (ny + 1)) (x : Fin (nx + 1))
    (h : invalidVal (u t y x) = false) :
    (applyRefs target refs (u, v)).1 t y x = u t y x ∧
      (applyRefs target refs (u, v)).2 t y x = v t y x :=
  applyRefs_valid_untouched target refs u v t y x h

/-- Witness for C4 at a concrete input: the cell of `uB` holds the
valid value 1, and after a pass over `goodRef` both components are
untouched. -/
theorem interp_valid_cell_never_rewritten_witness :
    invalidVal (uB 0 0 0) = false ∧
      (applyRefs targ1 [goodRef] (uB, vB)).1 0 0 0 = FVal.fin 1 ∧
      (applyRefs targ1 [goodRef] (uB, vB)).2 0 0 0 = FVal.fin 5 :=
  ⟨by decide,
    (interp_valid_cell_never_rewritten targ1 [goodRef] uB vB 0 0 0 (by decide)).1,
    (interp_valid_cell_never_rewritten targ1 [goodRef] uB vB 0 0 0 (by decide)).2⟩

/-- Claim C10: `InterpolationStep` constructed with `references = None`
or `references = []` makes `process` the identity on the data: it
returns arrays element-wise equal to the input `u` and `v` with no cell
modified. -/
theorem interp_no_references_identity {nt ny nx : ℕ}
    (loader : String → RefGrid) (target : TargetGrid nt ny nx)
    (u v : Arr nt ny nx) :
    InterpolationStep.process loader (InterpolationStep.mk_references none)
        target u v = .ok (u, v) ∧
      InterpolationStep.process loader
        (InterpolationStep.mk_references (some [])) target u v = .ok (u, v) :=
  ⟨rfl, rfl⟩

/-- Claim C5: when the reference's own value at the looked-up location
is itself invalid — the nearest-neighbour `U` component is NaN, or the
interpolated vector's magnitude `abs(u) + abs(v)` is exactly zero — the
fill for that target cell is rejected: `get_interped` returns
`(nan, nan)`, and the cell's `u` and `v` are set to NaN in the pass
output, never to the reference's value. -/
theorem interp_rejects_invalid_reference_value {nt ny nx : ℕ}
    (target : TargetGrid nt ny nx) (ref : RefGrid) (u v : Arr nt ny nx)
    (t : Fin (nt + 1)) (y : Fin (ny + 1)) (x : Fin (nx + 1))
    (hinv : invalidVal (u t y x) = true)
    (hrej : isnan (ref.closest_u (t : ℕ) (target.lats y) (target.lons x)) = true ∨
      iszero (fadd
        (fabs (ref.fs_u ((t : ℕ) * ref.time_diff) (target.lats y) (target.lons x)))
        (fabs (ref.fs_v ((t : ℕ) * ref.time_diff) (target.lats y) (target.lons x)))) = true) :
    get_interped target ref t y x = (FVal.nan, FVal.nan) ∧
      (processRef target ref u v).1 t y x = FVal.nan ∧
      (processRef target ref u v).2 t y x = FVal.nan := by
  have hcond : (isnan (ref.closest_u (t : ℕ) (target.lats y) (target.lons x)) ||
      iszero (fadd
        (fabs (ref.fs_u ((t : ℕ) * ref.time_diff) (target.lats y) (target.lons x)))
        (fabs (ref.fs_v ((t : ℕ) * ref.time_diff) (target.lats y) (target.lons x))))) = true := by
    rcases hrej with h | h <;> simp [h]
  have hget : get_interped target ref t y x = (FVal.nan, FVal.nan) := by
    rw [get_interped]
    simp only [hcond]
    rfl
  refine ⟨hget, ?_, ?_⟩
  · show (if generate_mask_invalid u t y x then (get_interped target ref t y x).1
      else u t y x) = FVal.nan
    rw [generate_mask_invalid, hinv, if_pos rfl, hget]
  · show (if generate_mask_invalid u t y x then (get_interped target ref t y x).2
      else v t y x) = FVal.nan
    rw [generate_mask_invalid, hinv, if_pos rfl, hget]

/-- Witness for C5 at a concrete input: the NaN cell of `uN` looked up
in `refZero`, whose field is the zero vector, is NaN'd rather than
filled with the reference's zero value. -/
theorem interp_rejects_invalid_reference_value_witness :
    invalidVal (uN 0 0 0) = true ∧
      get_interped targ1 refZero 0 0 0 = (FVal.nan, FVal.nan) ∧
      (processRef targ1 refZero uN vN).1 0 0 0 = FVal.nan ∧
      (processRef targ1 refZero uN vN).2 0 0 0 = FVal.nan :=
  ⟨by decide,
    (interp_rejects_invalid_reference_value targ1 refZero uN vN 0 0 0 (by decide)
      (Or.inr (by decide))).1,
    (interp_rejects_invalid_reference_value targ1 refZero uN vN 0 0 0 (by decide)
      (Or.inr (by decide))).2.1,
    (interp_rejects_invalid_reference_value targ1 refZero uN vN 0 0 0 (by decide)
      (Or.inr (by decide))).2.2⟩

/-- Counterexample to claim C1 as stated: `targ1` together with the
covering `goodRef` and the non-covering `badRef`.  The claim predicts
that `badRef` alone is skipped with a warning and the pipeline
continues with the remaining references; instead
`InterpolationStep.process` raises `ValueError` and returns no arrays at
all — not even `goodRef` is used. -/
theorem interp_coverage_counterexample :
    InterpolationStep.process loader0
        [RefInput.grid goodRef, RefInput.grid badRef] targ1 uA vA =
      .error
        "Incorrect reference dimensions (reference dimension ranges should be larger than the target's)" :=
  rfl

/-- Claim C1 as amended: if any loaded reference fails the coverage
test, `InterpolationStep.process` raises `ValueError` before filling a
single cell from any reference — the whole step aborts rather than
skipping the offending reference and continuing. -/
theorem interp_coverage_failure_aborts {nt ny nx : ℕ}
    (loader : String → RefGrid) (references : List RefInput)
    (target : TargetGrid nt ny nx) (u v : Arr nt ny nx)
    (loaded : List RefGrid)
    (hload : loadReferences loader references = .ok loaded)
    (hbad : loaded.all (coversTarget target) = false) :
    InterpolationStep.process loader references target u v =
      .error
        "Incorrect reference dimensions (reference dimension ranges should be larger than the target's)" := by
  rw [InterpolationStep.process, hload]
  show ((do_validation target loaded) >>= fun _ =>
      Except.ok (applyRefs target loaded (u, v))) =
    (Except.error _ : Except String (Arr nt ny nx × Arr nt ny nx))
  rw [do_validation, hbad]
  rfl

/-- Witness for the amended C1 at a concrete input: loading
`[goodRef, badRef]` succeeds, the coverage check over the loaded list
fails, and `process` aborts with the `ValueError` message. -/
theorem interp_coverage_failure_aborts_witness :
    ([goodRef, badRef].all (coversTarget targ1) = false) ∧
      InterpolationStep.process loader0
          [RefInput.grid goodRef, RefInput.grid badRef] targ1 uB vB =
        .error
          "Incorrect reference dimensions (reference dimension ranges should be larger than the target's)" :=
  ⟨by decide,
    interp_coverage_failure_aborts loader0
      [RefInput.grid goodRef, RefInput.grid badRef] targ1 uB vB
      [goodRef, badRef] rfl (by decide)⟩

/-- Counterexample to claim C2 as stated: the cell `(u, v) = (1, NaN)`.
Under the spec's rule (`spec_invalid`) the cell is invalid because `v`
is NaN, but the mask the code computes receives only the `u` array
(`generate_mask_invalid(u)` at lines 94 and 114), marks the cell valid,
and an interpolation pass over a fully covering reference leaves both
components untouched — the NaN in `v` survives, so the mask does not
depend on the `V` component. -/
theorem invalid_mask_counterexample :
    spec_invalid (FVal.fin 1) FVal.nan = true ∧
      invalidVal (FVal.fin 1) = false ∧
      (processRef targ1 goodRef uA vA).1 0 0 0 = FVal.fin 1 ∧
      (processRef targ1 goodRef uA vA).2 0 0 0 = FVal.nan := by
  refine ⟨by decide, by decide, ?_, ?_⟩ <;> decide

/-- Claim C2 as amended: the invalid mask is computed from the `U`
array alone — a cell is invalid exactly when its `u` value is NaN or
has zero magnitude — so the `V` component never influences the mask:
the `u` output of the per-reference loop is the same for any two `v`
inputs, and a cell whose `u` value is valid keeps its `v` value (NaN or
not) through every pass. -/
theorem invalid_mask_depends_only_on_u {nt ny nx : ℕ}
    (target : TargetGrid nt ny nx) (refs : List RefGrid)
    (u v v' : Arr nt ny nx)
    (t : Fin (nt + 1)) (y : Fin (ny + 1)) (x : Fin (nx + 1)) :
    generate_mask_invalid u t y x = (isnan (u t y x) || iszero (fabs (u t y x))) ∧
      (applyRefs target refs (u, v)).1 t y x =
        (applyRefs target refs (u, v')).1 t y x ∧
      (invalidVal (u t y x) = false →
        (applyRefs target refs (u, v)).2 t y x = v t y x) :=
  ⟨rfl,
    congrFun (congrFun (congrFun
      (applyRefs_fst_indep_v target refs u v v') t) y) x,
    fun h => (applyRefs_valid_untouched target refs u v t y x h).2⟩

/-- Witness for the amended C2 at a concrete input: with `u = 1`
everywhere, the pass output `u` is the same whether `v` is `5` or NaN,
and the valid cell keeps `v = 5`. -/
theorem invalid_mask_depends_only_on_u_witness :
    (applyRefs targ1 [goodRef] (uB, vB)).1 0 0 0 =
        (applyRefs targ1 [goodRef] (uB, vA)).1 0 0 0 ∧
      (applyRefs targ1 [goodRef] (uB, vB)).2 0 0 0 = FVal.fin 5 :=
  ⟨(invalid_mask_depends_only_on_u targ1 [goodRef] uB vB vA 0 0 0).2.1,
    (invalid_mask_depends_only_on_u targ1 [goodRef] uB vB vA 0 0 0).2.2 (by decide)⟩

theorem except_ok_bind {ε α β : Type} (a : α) (f : α → Except ε β) :
    (Except.ok a : Except ε α) >>= f = f a := rfl

theorem SpanRef.fs_u_out (r : SpanRef) (time lat lon : ℤ)
    (h : r.inSpan time lat lon = false) :
    r.toRefGrid.fs_u time lat lon = FVal.nan := by
  show (if r.inSpan time lat lon then r.raw_u time lat lon else FVal.nan) = FVal.nan
  rw [h]
  rfl

theorem SpanRef.fs_v_out (r : SpanRef) (time lat lon : ℤ)
    (h : r.inSpan time lat lon = false) :
    r.toRefGrid.fs_v time lat lon = FVal.nan := by
  show (if r.inSpan time lat lon then r.raw_v time lat lon else FVal.nan) = FVal.nan
  rw [h]
  rfl

/-- Claim C6: a reference lookup whose mapped coordinate
`(t * time_diff, lat, lon)` falls outside the reference's own span on
some axis is recovered locally as "no data": the cell is left NaN in
both output components, and no value is extrapolated beyond the span.
The `SurfaceGrid` lookup itself is modelled from the spec (`SpanRef`):
`OutOfDomain` recovered as NaN.  In this embedding `process` can only
fail with the loader's `TypeError` or validation's `ValueError`, so no
`OutOfDomain` error escapes it. -/
theorem interp_out_of_span_leaves_nan {nt ny nx : ℕ}
    (target : TargetGrid nt ny nx) (r : SpanRef) (u v : Arr nt ny nx)
    (t : Fin (nt + 1)) (y : Fin (ny + 1)) (x : Fin (nx + 1))
    (hout : r.inSpan ((t : ℕ) * r.time_diff) (target.lats y) (target.lons x) = false)
    (hinv : invalidVal (u t y x) = true) :
    get_interped target r.toRefGrid t y x = (FVal.nan, FVal.nan) ∧
      (processRef target r.toRefGrid u v).1 t y x = FVal.nan ∧
      (processRef target r.toRefGrid u v).2 t y x = FVal.nan := by
  have hu := SpanRef.fs_u_out r ((t : ℕ) * r.time_diff)
    (target.lats y) (target.lons x) hout
  have hv := SpanRef.fs_v_out r ((t : ℕ) * r.time_diff)
    (target.lats y) (target.lons x) hout
  have hget : get_interped target r.toRefGrid t y x = (FVal.nan, FVal.nan) := by
    show (if isnan (r.toRefGrid.closest_u (t : ℕ) (target.lats y) (target.lons x)) ||
        iszero (fadd
          (fabs (r.toRefGrid.fs_u ((t : ℕ) * r.toRefGrid.time_diff)
            (target.lats y) (target.lons x)))
          (fabs (r.toRefGrid.fs_v ((t : ℕ) * r.toRefGrid.time_diff)
            (target.lats y) (target.lons x)))) then
      ((FVal.nan, FVal.nan) : FVal × FVal)
    else
      (r.toRefGrid.fs_u ((t : ℕ) * r.toRefGrid.time_diff)
        (target.lats y) (target.lons x),
       r.toRefGrid.fs_v ((t : ℕ) * r.toRefGrid.time_diff)
        (target.lats y) (target.lons x))) = (FVal.nan, FVal.nan)
    rw [show ((t : ℕ) * r.toRefGrid.time_diff) = ((t : ℕ) * r.time_diff) from rfl,
      hu, hv]
    cases isnan (r.toRefGrid.closest_u (t : ℕ) (target.lats y) (target.lons x)) <;> rfl
  refine ⟨hget, ?_, ?_⟩
  · show (if generate_mask_invalid u t y x then
        (get_interped target r.toRefGrid t y x).1 else u t y x) = FVal.nan
    rw [generate_mask_invalid, hinv, if_pos rfl, hget]
  · show (if generate_mask_invalid u t y x then
        (get_interped target r.toRefGrid t y x).2 else v t y x) = FVal.nan
    rw [generate_mask_invalid, hinv, if_pos rfl, hget]

/-- Witness for C6 at a concrete input: `spanRefW`'s latitude span ends
at 31, below `targ1`'s latitude 32, so the lookup is out of span and
the NaN cell stays NaN instead of receiving `spanRefW`'s raw value
(2, 3). -/
theorem interp_out_of_span_leaves_nan_witness :
    spanRefW.inSpan (((0 : Fin 1) : ℕ) * spanRefW.time_diff)
        (targ1.lats 0) (targ1.lons 0) = false ∧
      get_interped targ1 spanRefW.toRefGrid 0 0 0 = (FVal.nan, FVal.nan) ∧
      (processRef targ1 spanRefW.toRefGrid uN vN).1 0 0 0 = FVal.nan ∧
      (processRef targ1 spanRefW.toRefGrid uN vN).2 0 0 0 = FVal.nan :=
  ⟨by decide,
    (interp_out_of_span_leaves_nan targ1 spanRefW uN vN 0 0 0 (by decide)
      (by decide)).1,
    (interp_out_of_span_leaves_nan targ1 spanRefW uN vN 0 0 0 (by decide)
      (by decide)).2.1,
    (interp_out_of_span_leaves_nan targ1 spanRefW uN vN 0 0 0 (by decide)
      (by decide)).2.2⟩

/-- Claim C7: for every input dataset holding `U` and `V` and every
step sequence that completes (shape preservation of each step is
carried by the `Arr nt ny nx` types), `Gapfiller.execute` returns a
dataset with identical dimensions, identical coordinate arrays and all
non-`U`/`V` variables and attributes unchanged; only `U` and `V` are
replaced. -/
theorem gapfiller_execute_preserves_frame {nt ny nx : ℕ}
    (steps : List (Arr nt ny nx → Arr nt ny nx →
      Except String (Arr nt ny nx × Arr nt ny nx)))
    (target : Dataset nt ny nx) (u₀ v₀ : Arr nt ny nx)
    (uv : Arr nt ny nx × Arr nt ny nx)
    (hU : target.getVar "U" = some u₀) (hV : target.getVar "V" = some v₀)
    (hrun : steps.foldlM (fun uv step => step uv.1 uv.2) (u₀, v₀) =
      Except.ok uv) :
    (Gapfiller.execute steps target).map Dataset.dims = .ok target.dims ∧
      (Gapfiller.execute steps target).map Dataset.coords = .ok target.coords ∧
      (Gapfiller.execute steps target).map Dataset.attrs = .ok target.attrs ∧
      ∀ name : String, name ≠ "U" → name ≠ "V" →
        (Gapfiller.execute steps target).map (fun d => d.getVar name) =
          .ok (target.getVar name) := by
  have hexec : Gapfiller.execute steps target = .ok { target with
      vars := (target.vars.filter (fun p => !(p.1 = "U" || p.1 = "V"))) ++
        [("U", uv.1), ("V", uv.2)] } := by
    simp only [Gapfiller.execute, hU, hV, hrun, except_ok_bind]
  refine ⟨?_, ?_, ?_, ?_⟩
  · rw [hexec]; rfl
  · rw [hexec]; rfl
  · rw [hexec]; rfl
  · intro name hU' hV'
    rw [hexec]
    show Except.ok (Dataset.getVar { target with
      vars := (target.vars.filter (fun p => !(p.1 = "U" || p.1 = "V"))) ++
        [("U", uv.1), ("V", uv.2)] } name) = Except.ok (target.getVar name)
    rw [Dataset.getVar, Dataset.getVar]
    exact congrArg (Except.ok ∘ Option.map (fun p => p.2))
      (find?_filter_append target.vars uv.1 uv.2 name hU' hV') |>.trans rfl

/-- Witness for C7 at a concrete input: `dsW` run through zero steps
keeps its attributes and its extra variable "W". -/
theorem gapfiller_execute_preserves_frame_witness :
    (Gapfiller.execute ([] : List (Arr 0 0 0 → Arr 0 0 0 →
        Except String (Arr 0 0 0 × Arr 0 0 0))) dsW).map Dataset.attrs =
      .ok dsW.attrs ∧
      (Gapfiller.execute ([] : List (Arr 0 0 0 → Arr 0 0 0 →
        Except String (Arr 0 0 0 × Arr 0 0 0))) dsW).map
          (fun d => d.getVar "W") = .ok (dsW.getVar "W") :=
  ⟨(gapfiller_execute_preserves_frame [] dsW uB vB (uB, vB) rfl rfl rfl).2.2.1,
    (gapfiller_execute_preserves_frame [] dsW uB vB (uB, vB) rfl rfl rfl).2.2.2
      "W" (by decide) (by decide)⟩

/-- Claim C8: when `SmoothnStep` holds a no-data mask that validates
against the target, every cell the mask marks is NaN in both output
arrays at every time step, regardless of what the external smoothing
engine returned. -/
theorem smoothn_mask_enforced {nt ny nx : ℕ}
    (engine : Arr2 ny nx → Arr2 ny nx → Arr2 ny nx × Arr2 ny nx)
    (m : MaskGrid ny nx) (target : TargetGrid nt ny nx) (u v : Arr nt ny nx)
    (t : Fin (nt + 1)) (y : Fin (ny + 1)) (x : Fin (nx + 1))
    (hval : SmoothnStep.do_validation (some m) target = .ok ())
    (hmask : generate_mask_no_data m.U y x = true) :
    (SmoothnStep.process engine (some m) target u v).map
        (fun pr => (pr.1 t y x, pr.2 t y x)) = .ok (FVal.nan, FVal.nan) := by
  simp only [SmoothnStep.process, hval, except_ok_bind]
  simp [Except.map, hmask]

/-- Witness for C8 at a concrete input: `maskW` marks `targ1`'s only
cell as no-data and validates against it; the engine `engineW` returns
the non-NaN pair (7, 8), yet the output cell is NaN in both
components. -/
theorem smoothn_mask_enforced_witness :
    SmoothnStep.do_validation (some maskW) targ1 = .ok () ∧
      generate_mask_no_data maskW.U 0 0 = true ∧
      (SmoothnStep.process engineW (some maskW) targ1 uB vB).map
        (fun pr => (pr.1 0 0 0, pr.2 0 0 0)) = .ok (FVal.nan, FVal.nan) :=
  ⟨rfl, by decide,
    smoothn_mask_enforced engineW maskW targ1 uB vB 0 0 0 rfl (by decide)⟩

/-- Counterexample to claim C9 as stated: a configuration holding an
`InterpolationStep` whose reference has an unrecognized type
constructs without any error — `load_from_config` succeeds — and the
`TypeError` (`UnsupportedReferenceType`) is only raised later, when
`InterpolationStep.process` runs.  So that error is not raised at
pipeline construction time. -/
theorem config_error_timing_counterexample :
    load_from_config
        [{ name := "InterpolationStep",
           args := StepArgs.interpArgs (some [RefInput.other "int"]) }] =
      .ok [GapStep.interp [RefInput.other "int"]] ∧
      InterpolationStep.process loader0 [RefInput.other "int"] targ1 uA vA =
        .error "Unrecognized type for int" :=
  ⟨rfl, rfl⟩

/-- Claim C9 as amended: the two configuration errors differ in timing.
An unregistered step name (`UnknownStepKind`) is raised by
`load_from_config` at pipeline construction time, before any numeric
work; an unrecognized reference representation
(`UnsupportedReferenceType`) is raised only when
`InterpolationStep.process` runs — though still before that step fills
any cell, since reference loading precedes the fill loop. -/
theorem config_error_timing (name : String)
    (hn1 : name ≠ "InterpolationStep") (hn2 : name ≠ "SmoothnStep")
    (args : StepArgs) (rest : List StepRecord)
    {nt ny nx : ℕ} (loader : String → RefGrid) (target : TargetGrid nt ny nx)
    (u v : Arr nt ny nx) (gs : List RefGrid) (d : String)
    (post : List RefInput) :
    load_from_config ({ name := name, args := args } :: rest) =
        .error ("Gapfilling step " ++ name ++ " not found in gapfilling.py") ∧
      InterpolationStep.process loader
          (gs.map RefInput.grid ++ RefInput.other d :: post) target u v =
        .error ("Unrecognized type for " ++ d) := by
  constructor
  · simp only [load_from_config, List.mapM_cons]
    rw [import_gapfill_step, if_neg hn1, if_neg hn2]
    rfl
  · rw [InterpolationStep.process, loadReferences_other]
    rfl

/-- Witness for the amended C9 at concrete inputs: the unknown name
"FooStep" fails at construction, and a bad-typed reference after one
good grid fails when `process` runs. -/
theorem config_error_timing_witness :
    load_from_config
        [{ name := "FooStep", args := StepArgs.smoothnArgs none }] =
      .error "Gapfilling step FooStep not found in gapfilling.py" ∧
      InterpolationStep.process loader0
          ([goodRef].map RefInput.grid ++ RefInput.other "dict" :: []) targ1 uB vB =
        .error "Unrecognized type for dict" :=
  ⟨(config_error_timing "FooStep" (by decide) (by decide)
      (StepArgs.smoothnArgs none) [] loader0 targ1 uB vB [goodRef] "dict" []).1,
    (config_error_timing "FooStep" (by decide) (by decide)
      (StepArgs.smoothnArgs none) [] loader0 targ1 uB vB [goodRef] "dict" []).2⟩
